import Mathlib

/-!
# Verification of the Venn diagram application core (`Venn_app.py`)

Shallow embedding of the pure core of `Venn_app.py`: the filename
sanitizer, the set comparator, the result-table builder, the style
validator, the sheet-session state with workbook loading and navigation,
and the batch export pipeline.

Modelling conventions:
* A spreadsheet column is a `List (Option String)`: `none` models a
  missing (`NaN`) cell, `some v` a cell already coerced to its string
  representation (the code does `.dropna().astype(str)`).
* A pandas `DataFrame` is its list of named columns.
* Python dicts are association lists with Python's insertion-order /
  overwrite-on-duplicate-key semantics (`dictInsert`).
* Python floats for the style parameters are modelled as rationals.
* Fallible code paths (uncaught `KeyError` in the export loop) return
  `Option`.
-/

namespace VennApp

/-! ## Filename sanitizer (`sanitize_filename`, Venn_app.py lines 27-30) -/

/-- A regex word character (`\w`): alphanumeric or underscore
(ASCII reading). -/
def isWordChar (c : Char) : Bool :=
  c.isAlphanum || c == '_'

/-- A character kept by the regex character class `[^\w\-. ]` complement:
word characters, hyphen, period, space. -/
def isAllowedChar (c : Char) : Bool :=
  isWordChar c || c == '-' || c == '.' || c == ' '

/-- Python `str.strip` whitespace characters. -/
def isPySpace (c : Char) : Bool :=
  c == ' ' || c == '\t' || c == '\n' || c == '\r' || c == '\x0b' || c == '\x0c'

/-- Python `str.strip`: drop leading and trailing whitespace. -/
def pyStrip (l : List Char) : List Char :=
  ((l.dropWhile isPySpace).reverse.dropWhile isPySpace).reverse

/-- `re.sub(r"[^\w\-. ]+", "_", s)`: each maximal run of disallowed
characters becomes a single underscore.  The `Bool` argument records
whether the previous character was part of a disallowed run. -/
def collapseSub : Bool → List Char → List Char
  | _, [] => []
  | prevBad, c :: cs =>
    if isAllowedChar c then c :: collapseSub false cs
    else if prevBad then collapseSub true cs
    else '_' :: collapseSub true cs

/-- `sanitize_filename` on the character list: strip, replace runs of
disallowed characters with one underscore, truncate to 60. -/
def sanitizeCore (l : List Char) : List Char :=
  (collapseSub false (pyStrip l)).take 60

/-- `sanitize_filename(s)` from Venn_app.py lines 27-30. -/
def sanitize_filename (s : String) : String :=
  ⟨sanitizeCore s.data⟩

/-- The sanitizer as the spec's claim C7 literally describes it:
strip, then replace EVERY disallowed character by its own underscore
(no run collapsing), truncate to 60.  Stated only to compare with
`sanitize_filename`. -/
def sanitizeCharwise (s : String) : String :=
  ⟨((pyStrip s.data).map (fun c => if isAllowedChar c then c else '_')).take 60⟩

/-! ## Set comparator (`compute_sets`, Venn_app.py lines 32-38) -/

/-- `series.dropna().astype(str)` as the list of present values. -/
def presentValues (col : List (Option String)) : List String :=
  col.filterMap id

/-- `set(series.dropna().astype(str))`. -/
def toSet (col : List (Option String)) : Finset String :=
  (presentValues col).toFinset

/-- Python `sorted` on a set of strings: the ascending list of its
elements (lexicographic string order). -/
def sortedList (s : Finset String) : List String :=
  s.sort (· ≤ ·)

/-- The 5-tuple returned by `compute_sets`. -/
structure SetsResult where
  setA : Finset String
  setB : Finset String
  unique_A : List String
  unique_B : List String
  shared : List String
deriving DecidableEq

/-- `compute_sets(seriesA, seriesB)` from Venn_app.py lines 32-38. -/
def compute_sets (seriesA seriesB : List (Option String)) : SetsResult :=
  let setA := toSet seriesA
  let setB := toSet seriesB
  ⟨setA, setB, sortedList (setA \ setB), sortedList (setB \ setA),
    sortedList (setA ∩ setB)⟩

/-! ## Result table builder (`to_results_df`, Venn_app.py lines 68-75) -/

/-- One key/value insertion into a Python dict literal: overwrite in
place if the key is present, else append. -/
def dictInsert (d : List (String × List String)) (k : String)
    (v : List String) : List (String × List String) :=
  if d.any (fun p => p.1 == k) then
    d.map (fun p => if p.1 == k then (p.1, v) else p)
  else d ++ [(k, v)]

/-- `to_results_df(la, lb, unique_A, unique_B, shared)` from Venn_app.py
lines 68-75: the DataFrame is modelled as its ordered list of named
columns, built through the dict literal `{"Unique to {la}": …,
"Unique to {lb}": …, "Shared": …}`. -/
def to_results_df (la lb : String) (unique_A unique_B shared : List String) :
    List (String × List String) :=
  let max_len := max (max unique_A.length unique_B.length) shared.length
  let pad := fun (L : List String) => L ++ List.replicate (max_len - L.length) ""
  dictInsert
    (dictInsert
      (dictInsert [] ("Unique to " ++ la) (pad unique_A))
      ("Unique to " ++ lb) (pad unique_B))
    "Shared" (pad shared)

/-! ## Sheet session state (`AppState`, Venn_app.py lines 78-96) -/

/-- A pandas `DataFrame` as its ordered list of named columns; each
column carries its header and its cells (`none` = missing). -/
structure DataFrame where
  cols : List (String × List (Option String))
deriving DecidableEq

/-- `df.shape[1]`: the number of columns. -/
def DataFrame.ncols (df : DataFrame) : Nat :=
  df.cols.length

/-- `str(df.columns[i])`: the header of column `i` (only used where the
code has already checked `ncols ≥ 2`). -/
def DataFrame.header (df : DataFrame) (i : Nat) : String :=
  ((df.cols.getD i ("", [])).1)

/-- `df.iloc[:, i]`: the cells of column `i`. -/
def DataFrame.col (df : DataFrame) (i : Nat) : List (Option String) :=
  ((df.cols.getD i ("", [])).2)

/-- The global `AppState` (class `AppState`, Venn_app.py lines 78-96).
Dict-valued fields are association lists keyed by sheet name; `idx` is a
Python int, so an `Int`; the float style values are rationals. -/
structure AppState where
  wb_path : Option String
  sheets : List String
  dfs : List (String × DataFrame)
  labels : List (String × (String × String))
  headers : List (String × (String × String))
  idx : Int
  colorA : String
  colorB : String
  alpha : ℚ
  label_y : ℚ
deriving DecidableEq

/-- `S.has_data()`: whether the `dfs` dict is non-empty. -/
def AppState.has_data (st : AppState) : Bool :=
  !st.dfs.isEmpty

/-- The worksheets kept by `load_workbook`: those with at least two
columns (Venn_app.py line 114). -/
def qualifying (wb : List (String × DataFrame)) : List (String × DataFrame) :=
  wb.filter (fun p => 2 ≤ p.2.ncols)

/-- `load_workbook` (Venn_app.py lines 99-132) after a successful
`pd.ExcelFile(path)`, with the parsed workbook given as the list of
(sheet name, DataFrame) pairs.  Mirrors the code's order: `wb_path` is
set and `sheets`/`dfs`/`labels`/`headers` are cleared first, then the
qualifying sheets are appended; on the "no usable sheets" path the
function returns with the session in that cleared form (`idx`
untouched), and the returned flag is `false`; otherwise `idx` is set to
0 and the flag is `true`. -/
def load_workbook (st : AppState) (path : String)
    (wb : List (String × DataFrame)) : AppState × Bool :=
  let q := qualifying wb
  let st1 : AppState :=
    { st with
      wb_path := some path
      sheets := q.map (fun p => p.1)
      dfs := q
      headers := q.map (fun p => (p.1, (p.2.header 0, p.2.header 1)))
      labels := q.map (fun p => (p.1, (p.2.header 0, p.2.header 1))) }
  if q.isEmpty then (st1, false)
  else ({ st1 with idx := 0 }, true)

/-- `prev_sheet` (Venn_app.py lines 205-208): wraps with Python's `%`,
which is `Int.emod` for a positive modulus. -/
def prev_sheet (st : AppState) : AppState :=
  if st.has_data then
    { st with idx := (st.idx - 1).emod st.sheets.length }
  else st

/-- `next_sheet` (Venn_app.py lines 210-213). -/
def next_sheet (st : AppState) : AppState :=
  if st.has_data then
    { st with idx := (st.idx + 1).emod st.sheets.length }
  else st

/-! ## Style validation (`update_alpha_labely`, Venn_app.py lines 193-203) -/

/-- `update_alpha_labely` (Venn_app.py lines 193-203).  The two entry
fields arrive as `Option ℚ` (`none` = `float(...)` raised, i.e. a
non-numeric entry).  The second component of the result is the
(alpha, label_y) pair the redraw `refresh_sheet_ui()` is performed
with, or `none` when the `except` branch ran and no redraw happened. -/
def update_alpha_labely (st : AppState) (entry_alpha entry_labely : Option ℚ) :
    AppState × Option (ℚ × ℚ) :=
  match entry_alpha, entry_labely with
  | some a, some ly =>
    if 0 ≤ a ∧ a ≤ 1 then
      if ly < 9/10 ∨ 16/10 < ly then (st, none)
      else
        let st' := { st with alpha := a, label_y := ly }
        (st', some (st'.alpha, st'.label_y))
    else (st, none)
  | _, _ => (st, none)

/-- Rational comparison by cross multiplication (kernel-computable
Bool equivalent of `x ≤ y`). -/
def ratLeB (x y : ℚ) : Bool :=
  decide (x.num * (y.den : Int) ≤ y.num * (x.den : Int))

/-- The entries `update_alpha_labely` accepts, as a decidable Bool:
both parse as numbers, alpha in [0, 1], label height in [0.9, 1.6]. -/
def validStyleB (entry_alpha entry_labely : Option ℚ) : Bool :=
  match entry_alpha, entry_labely with
  | some a, some ly =>
    (ratLeB 0 a && ratLeB a 1) && (ratLeB (9/10) ly && ratLeB ly (16/10))
  | _, _ => false

/-! ## Batch export (`save_all_sheets`, Venn_app.py lines 242-299) -/

/-- The filename stem `f"{sanitize_filename(name)}__{la_safe}_vs_{lb_safe}_{ts}"`
(Venn_app.py lines 226-227 and 268-269). -/
def outBase (name la lb ts : String) : String :=
  sanitize_filename name ++ "__" ++ sanitize_filename la ++ "_vs_" ++
    sanitize_filename lb ++ "_" ++ ts

/-- `safe_sheet = sanitize_filename(name)[:31] or f"Sheet{done+1}"`
(Venn_app.py line 284): empty string is falsy, so the positional
fallback name is used exactly when the truncated sanitization is
empty. -/
def safe_sheet_name (name : String) (done : Nat) : String :=
  let t : String := ⟨(sanitize_filename name).data.take 31⟩
  if t = "" then "Sheet" ++ toString (done + 1) else t

/-- What `save_all_sheets` reports back: the per-sheet image and
tabular files written, the sections appended to the combined writer,
the number of warnings surfaced, the final `done` count, and the
combined workbook path mentioned in the closing dialog (if any). -/
structure SaveAllResult where
  pngs : List String
  csvs : List String
  sections : List String
  warnings : Nat
  done : Nat
  combined_path : Option String
deriving DecidableEq

/-- The `for name in S.sheets` loop of `save_all_sheets` (Venn_app.py
lines 262-289).  Arguments: the running `done` count and the sections
already present in the combined writer.  A failed dict lookup
(`S.dfs[name]` / `S.labels[name]`) would raise `KeyError` and abort the
whole callback, hence the `Option`.  A sheet with fewer than two
columns is skipped (`continue`).  When the writer is open, appending a
duplicate section name raises inside `to_excel` and is swallowed
(`except: pass`). -/
def saveLoop (st : AppState) (ts : String) (writerOpen : Bool) :
    List String → Nat → List String →
    Option (List String × List String × List String × Nat)
  | [], done, secs => some ([], [], secs, done)
  | name :: rest, done, secs =>
    match st.dfs.lookup name, st.labels.lookup name with
    | some df, some lab =>
      if df.ncols < 2 then saveLoop st ts writerOpen rest done secs
      else
        let base := outBase name lab.1 lab.2 ts
        let secs' :=
          if writerOpen then
            let ss := safe_sheet_name name done
            if ss ∈ secs then secs else secs ++ [ss]
          else secs
        match saveLoop st ts writerOpen rest (done + 1) secs' with
        | some (ps, cs, s2, d) =>
          some ((base ++ ".png") :: ps, (base ++ ".csv") :: cs, s2, d)
        | none => none
    | _, _ => none

/-- `save_all_sheets` (Venn_app.py lines 242-299).  `combined` is the
checkbox value; `writerAvailable` models whether constructing
`pd.ExcelWriter(..., engine="openpyxl")` succeeds.  When the checkbox
is on but the writer construction fails, one warning dialog is shown
and `writer` stays `None`; the loop then still writes every sheet's
PNG and CSV pair, and the closing dialog reports only the `done`
count with no combined path. -/
def save_all_sheets (st : AppState) (combined writerAvailable : Bool)
    (ts : String) : Option SaveAllResult :=
  if st.has_data then
    let writerOpen := combined && writerAvailable
    let warn := if combined && !writerAvailable then 1 else 0
    let xlsx_path := "venn_batch_results_" ++ ts ++ ".xlsx"
    match saveLoop st ts writerOpen st.sheets 0 [] with
    | some (ps, cs, secs, done) =>
      some ⟨ps, cs, secs, warn, done,
        if writerOpen then some xlsx_path else none⟩
    | none => none
  else some ⟨[], [], [], 0, 0, none⟩

/-- Whether a character list avoids two adjacent disallowed characters
(the situation in which the regex substitution is per-character). -/
def noAdjacentBad : List Char → Bool
  | [] => true
  | [_] => true
  | a :: b :: rest => (isAllowedChar a || isAllowedChar b) && noAdjacentBad (b :: rest)

/-- Cursor invariant: either no sheet is loaded, or the index is a
valid position into the sheet list. -/
def cursorInv (st : AppState) : Prop :=
  st.sheets = [] ∨ (0 ≤ st.idx ∧ st.idx < st.sheets.length)

instance (st : AppState) : Decidable (cursorInv st) :=
  inferInstanceAs
    (Decidable (st.sheets = [] ∨ (0 ≤ st.idx ∧ st.idx < st.sheets.length)))

/-- Well-formedness of one sheet entry for the export loop: the sheet
name resolves in the data and label dicts and its DataFrame has at
least two columns (true of every sheet a load keeps). -/
def sheetOk (st : AppState) (name : String) : Prop :=
  (st.dfs.lookup name).isSome = true ∧
    (st.labels.lookup name).isSome = true ∧
    2 ≤ ((st.dfs.lookup name).getD ⟨[]⟩).ncols

instance (st : AppState) (name : String) : Decidable (sheetOk st name) :=
  inferInstanceAs
    (Decidable ((st.dfs.lookup name).isSome = true ∧
      (st.labels.lookup name).isSome = true ∧
      2 ≤ ((st.dfs.lookup name).getD ⟨[]⟩).ncols))

/-- A concrete DataFrame with two columns, used by the witnesses. -/
def exDF : DataFrame :=
  ⟨[("H1", [some "a", some "b", none]), ("H2", [some "b"])]⟩

/-- A concrete session state with one loaded sheet, used by the
witnesses. -/
def exSt : AppState :=
  { wb_path := some "book.xlsx"
    sheets := ["S1"]
    dfs := [("S1", exDF)]
    labels := [("S1", ("H1", "H2"))]
    headers := [("S1", ("H1", "H2"))]
    idx := 0
    colorA := "#f4c27a"
    colorB := "#a6d49f"
    alpha := 0
    label_y := 1 }

/-! ## Lemmas about the sanitizer -/

/-- Every character emitted by the run-collapsing substitution is in the
allowed class (the replacement `'_'` itself is a word character). -/
theorem mem_collapseSub (b : Bool) (l : List Char) :
    ∀ c ∈ collapseSub b l, isAllowedChar c = true := by
  induction l generalizing b with
  | nil => intro c hc; simp [collapseSub] at hc
  | cons d cs ih =>
    intro c hc
    by_cases hd : isAllowedChar d
    · simp only [collapseSub, if_pos hd, List.mem_cons] at hc
      rcases hc with rfl | hc
      · exact hd
      · exact ih false c hc
    · cases b with
      | true =>
        simp only [collapseSub, if_neg hd, if_pos rfl] at hc
        exact ih true c hc
      | false =>
        simp only [collapseSub, if_neg hd] at hc
        rcases List.mem_cons.mp hc with rfl | hc
        · decide
        · exact ih true c hc

/-- On a list whose adjacent characters are never both disallowed, the
run-collapsing substitution agrees with the per-character substitution;
first, the recursion flags coincide when the head is allowed or absent. -/
theorem collapseSub_true_eq_false (l : List Char)
    (h : l = [] ∨ ∃ d cs, l = d :: cs ∧ isAllowedChar d = true) :
    collapseSub true l = collapseSub false l := by
  rcases h with rfl | ⟨d, cs, rfl, hd⟩
  · rfl
  · simp [collapseSub, hd]

theorem noAdjacentBad_tail {d : Char} {cs : List Char}
    (h : noAdjacentBad (d :: cs) = true) : noAdjacentBad cs = true := by
  cases cs with
  | nil => rfl
  | cons e es =>
    rw [noAdjacentBad] at h
    simp only [Bool.and_eq_true] at h
    exact h.2

/-- Per-character substitution agrees with run collapsing when no two
consecutive characters are both disallowed. -/
theorem collapseSub_eq_map (l : List Char) (h : noAdjacentBad l = true) :
    collapseSub false l = l.map (fun c => if isAllowedChar c then c else '_') := by
  induction l with
  | nil => rfl
  | cons d cs ih =>
    by_cases hd : isAllowedChar d
    · simp only [collapseSub, if_pos hd, List.map_cons, hd, if_true]
      exact congrArg _ (ih (noAdjacentBad_tail h))
    · simp only [collapseSub, if_neg hd, List.map_cons, hd, Bool.false_eq_true,
        if_false]
      refine congrArg _ ?_
      rw [collapseSub_true_eq_false, ih (noAdjacentBad_tail h)]
      cases cs with
      | nil => exact Or.inl rfl
      | cons e es =>
        refine Or.inr ⟨e, es, rfl, ?_⟩
        rw [noAdjacentBad] at h
        simp only [Bool.and_eq_true, Bool.or_eq_true] at h
        rcases h.1 with he | he
        · exact absurd he hd
        · exact he

/-! ## Claim C7: filename safety of the sanitizer -/

/-- C7 (counterexample): on the input `"a!!"` the sanitizer collapses
the run of two disallowed characters into a single underscore, so the
output is NOT the input with every disallowed character replaced by its
own underscore. -/
theorem sanitize_filename_not_charwise :
    sanitize_filename "a!!" = "a_" ∧ sanitizeCharwise "a!!" = "a__" ∧
      sanitize_filename "a!!" ≠ sanitizeCharwise "a!!" := by
  decide

/-- C7 (amended): for every input string, the output of
`sanitize_filename` contains only characters from the allowed set
{word characters, hyphen, period, space}, its length is at most 60,
and whenever the stripped input has no two consecutive disallowed
characters the output is exactly the per-character replacement — in
general each maximal run of disallowed characters becomes one
underscore. -/
theorem sanitize_filename_safe (s : String) :
    (∀ c ∈ (sanitize_filename s).data, isAllowedChar c = true) ∧
      (sanitize_filename s).length ≤ 60 ∧
      (noAdjacentBad (pyStrip s.data) = true →
        sanitize_filename s = sanitizeCharwise s) := by
  refine ⟨?_, ?_, ?_⟩
  · intro c hc
    exact mem_collapseSub false (pyStrip s.data) c (List.take_subset _ _ hc)
  · show (sanitizeCore s.data).length ≤ 60
    simp [sanitizeCore, List.length_take]
  · intro h
    show (⟨sanitizeCore s.data⟩ : String) = (⟨_⟩ : String)
    rw [sanitizeCore, collapseSub_eq_map _ h]

/-- C7 (witness): the amended theorem applied at `"a!b"`, whose
stripped character list has no two consecutive disallowed characters. -/
theorem sanitize_filename_safe_witness :
    sanitize_filename "a!b" = sanitizeCharwise "a!b" :=
  (sanitize_filename_safe "a!b").2.2 (by decide)

/-! ## Claims C3 and C5: the result table builder -/

theorem uniqueTo_ne_shared (la : String) : ("Unique to " ++ la) ≠ "Shared" := by
  intro h
  have hlen := congrArg String.length h
  rw [String.length_append] at hlen
  have h1 : ("Unique to " : String).length = 10 := by decide
  have h2 : ("Shared" : String).length = 6 := by decide
  rw [h1, h2] at hlen
  omega

theorem uniqueTo_injective {la lb : String}
    (h : ("Unique to " ++ la) = ("Unique to " ++ lb)) : la = lb := by
  have hd : ("Unique to " : String).data ++ la.data
      = ("Unique to " : String).data ++ lb.data := congrArg String.data h
  exact String.ext (List.append_cancel_left hd)

/-- C3 (counterexample): with labelA = labelB = "X" the dict literal in
`to_results_df` collapses the duplicate key, so the table has the two
columns "Unique to X" and "Shared", not three columns with two named
"Unique to X". -/
theorem to_results_df_dup_labels_cex :
    (to_results_df "X" "X" ["a"] ["b"] []).map Prod.fst ≠
        ["Unique to X", "Unique to X", "Shared"] ∧
      (to_results_df "X" "X" ["a"] ["b"] []).map Prod.fst
        = ["Unique to X", "Shared"] := by
  decide

/-- C3 (amended): when labelA equals labelB no exception is raised, and
the table has exactly two columns: "Unique to {label}" holding the
padded unique-to-B collection (the second dict entry overwrites the
first), and "Shared" holding the padded shared collection; the padding
width still counts the discarded unique-to-A collection. -/
theorem to_results_df_dup_labels (la : String) (uA uB sh : List String) :
    to_results_df la la uA uB sh =
      [("Unique to " ++ la,
          uB ++ List.replicate (max (max uA.length uB.length) sh.length - uB.length) ""),
        ("Shared",
          sh ++ List.replicate (max (max uA.length uB.length) sh.length - sh.length) "")] := by
  have h1 : (("Unique to " ++ la) == ("Unique to " ++ la)) = true :=
    beq_self_eq_true _
  have h2 : (("Unique to " ++ la) == "Shared") = false :=
    beq_eq_false_iff_ne.mpr (uniqueTo_ne_shared la)
  simp [to_results_df, dictInsert, h1, h2]

/-- C5 (counterexample): the claimed shape fails when labelA equals
labelB, because the duplicate dict key leaves only two columns. -/
theorem to_results_df_shape_cex :
    (to_results_df "X" "X" [] [] ["s"]).map Prod.fst ≠
      ["Unique to X", "Unique to X", "Shared"] := by
  decide

/-- C5 (amended): for distinct labels the result table is rectangular:
the columns appear in the fixed order Unique-to-A, Unique-to-B, Shared,
each column is its collection padded at the end with empty-string cells,
and every column's row count is max(len(uniqueA), len(uniqueB),
len(shared)). -/
theorem to_results_df_shape (la lb : String) (uA uB sh : List String)
    (h : la ≠ lb) :
    to_results_df la lb uA uB sh =
        [("Unique to " ++ la,
            uA ++ List.replicate (max (max uA.length uB.length) sh.length - uA.length) ""),
          ("Unique to " ++ lb,
            uB ++ List.replicate (max (max uA.length uB.length) sh.length - uB.length) ""),
          ("Shared",
            sh ++ List.replicate (max (max uA.length uB.length) sh.length - sh.length) "")] ∧
      ∀ p ∈ to_results_df la lb uA uB sh,
        p.2.length = max (max uA.length uB.length) sh.length := by
  have hAB : (("Unique to " ++ la) == ("Unique to " ++ lb)) = false :=
    beq_eq_false_iff_ne.mpr (fun heq => h (uniqueTo_injective heq))
  have hA : (("Unique to " ++ la) == "Shared") = false :=
    beq_eq_false_iff_ne.mpr (uniqueTo_ne_shared la)
  have hB : (("Unique to " ++ lb) == "Shared") = false :=
    beq_eq_false_iff_ne.mpr (uniqueTo_ne_shared lb)
  have heq : to_results_df la lb uA uB sh =
      [("Unique to " ++ la,
          uA ++ List.replicate (max (max uA.length uB.length) sh.length - uA.length) ""),
        ("Unique to " ++ lb,
          uB ++ List.replicate (max (max uA.length uB.length) sh.length - uB.length) ""),
        ("Shared",
          sh ++ List.replicate (max (max uA.length uB.length) sh.length - sh.length) "")] := by
    simp [to_results_df, dictInsert, hAB, hA, hB]
  refine ⟨heq, ?_⟩
  rw [heq]
  intro p hp
  have h1 : uA.length ≤ max (max uA.length uB.length) sh.length :=
    le_trans (le_max_left _ _) (le_max_left _ _)
  have h2 : uB.length ≤ max (max uA.length uB.length) sh.length :=
    le_trans (le_max_right _ _) (le_max_left _ _)
  have h3 : sh.length ≤ max (max uA.length uB.length) sh.length :=
    le_max_right _ _
  rcases List.mem_cons.mp hp with rfl | hp
  · simp only [List.length_append, List.length_replicate]
    omega
  rcases List.mem_cons.mp hp with rfl | hp
  · simp only [List.length_append, List.length_replicate]
    omega
  rcases List.mem_cons.mp hp with rfl | hp
  · simp only [List.length_append, List.length_replicate]
    omega
  · simp at hp

/-- C5 (witness): the amended theorem applied at labelA = "A",
labelB = "B", collections of lengths 2, 1, 0. -/
theorem to_results_df_shape_witness :
    to_results_df "A" "B" ["x", "y"] ["z"] [] =
      [("Unique to A", ["x", "y"]), ("Unique to B", ["z", ""]),
        ("Shared", ["", ""])] := by
  rw [(to_results_df_shape "A" "B" ["x", "y"] ["z"] [] (by decide)).1]
  decide

/-! ## Claim C10: whitespace-only inputs sanitize to the empty string -/

/-- C10: `sanitize_filename` strips before substituting, so an input
consisting only of whitespace (the empty string included) sanitizes to
the empty string, which is exactly the case that makes the combined
workbook use the positional fallback section name `Sheet{done+1}`. -/
theorem sanitize_whitespace_empty (s : String)
    (h : ∀ c ∈ s.data, isPySpace c = true) :
    sanitize_filename s = "" ∧
      ∀ d : Nat, safe_sheet_name s d = "Sheet" ++ toString (d + 1) := by
  have hstrip : pyStrip s.data = [] := by
    rw [pyStrip, List.dropWhile_eq_nil_iff.mpr h]
    rfl
  have hempty : sanitize_filename s = "" := by
    show (⟨sanitizeCore s.data⟩ : String) = ""
    rw [sanitizeCore, hstrip]
    rfl
  refine ⟨hempty, fun d => ?_⟩
  rw [safe_sheet_name, hempty]
  rfl

/-! ## Claims C1 and C4: the set comparator -/

theorem compute_sets_setA (a b : List (Option String)) :
    (compute_sets a b).setA = toSet a := rfl

theorem compute_sets_setB (a b : List (Option String)) :
    (compute_sets a b).setB = toSet b := rfl

theorem compute_sets_unique_A (a b : List (Option String)) :
    (compute_sets a b).unique_A = sortedList (toSet a \ toSet b) := rfl

theorem compute_sets_unique_B (a b : List (Option String)) :
    (compute_sets a b).unique_B = sortedList (toSet b \ toSet a) := rfl

theorem compute_sets_shared (a b : List (Option String)) :
    (compute_sets a b).shared = sortedList (toSet a ∩ toSet b) := rfl

theorem toFinset_sortedList (s : Finset String) :
    (sortedList s).toFinset = s :=
  Finset.sort_toFinset _ s

theorem length_sortedList (s : Finset String) :
    (sortedList s).length = s.card :=
  Finset.length_sort _

theorem nodup_sortedList (s : Finset String) :
    (sortedList s).Nodup :=
  Finset.sort_nodup _ s

theorem sorted_sortedList (s : Finset String) :
    (sortedList s).Sorted (· ≤ ·) :=
  Finset.sort_sorted _ s

/-- C1: the three collections returned by `compute_sets` are pairwise
disjoint, duplicate-free, and their union is the de-duplicated union of
the non-missing stringified values of the two columns; consequently
`|setA| = |unique_A| + |shared|` and `|setB| = |unique_B| + |shared|`. -/
theorem compute_sets_partition (a b : List (Option String)) :
    Disjoint (compute_sets a b).unique_A.toFinset (compute_sets a b).unique_B.toFinset ∧
      Disjoint (compute_sets a b).unique_A.toFinset (compute_sets a b).shared.toFinset ∧
      Disjoint (compute_sets a b).unique_B.toFinset (compute_sets a b).shared.toFinset ∧
      (compute_sets a b).unique_A.Nodup ∧
      (compute_sets a b).unique_B.Nodup ∧
      (compute_sets a b).shared.Nodup ∧
      (compute_sets a b).unique_A.toFinset ∪ (compute_sets a b).unique_B.toFinset ∪
          (compute_sets a b).shared.toFinset
        = (presentValues a ++ presentValues b).toFinset ∧
      (compute_sets a b).setA.card
        = (compute_sets a b).unique_A.length + (compute_sets a b).shared.length ∧
      (compute_sets a b).setB.card
        = (compute_sets a b).unique_B.length + (compute_sets a b).shared.length := by
  simp only [compute_sets_setA, compute_sets_setB, compute_sets_unique_A,
    compute_sets_unique_B, compute_sets_shared, toFinset_sortedList,
    length_sortedList]
  refine ⟨?_, ?_, ?_, nodup_sortedList _, nodup_sortedList _,
    nodup_sortedList _, ?_, ?_, ?_⟩
  · simp only [Finset.disjoint_left, Finset.mem_sdiff]
    tauto
  · simp only [Finset.disjoint_left, Finset.mem_sdiff, Finset.mem_inter]
    tauto
  · simp only [Finset.disjoint_left, Finset.mem_sdiff, Finset.mem_inter]
    tauto
  · ext x
    simp only [List.toFinset_append, Finset.mem_union, Finset.mem_sdiff,
      Finset.mem_inter, toSet]
    tauto
  · exact (Finset.card_sdiff_add_card_inter _ _).symm
  · rw [Finset.inter_comm]
    exact (Finset.card_sdiff_add_card_inter _ _).symm

/-- C4: `compute_sets` is invariant under any permutation of the rows
of either column, and each of its three output collections is sorted in
non-decreasing lexicographic string order. -/
theorem compute_sets_sorted_invariant (a b a' b' : List (Option String))
    (ha : a.Perm a') (hb : b.Perm b') :
    compute_sets a' b' = compute_sets a b ∧
      (compute_sets a b).unique_A.Sorted (· ≤ ·) ∧
      (compute_sets a b).unique_B.Sorted (· ≤ ·) ∧
      (compute_sets a b).shared.Sorted (· ≤ ·) := by
  have hA : toSet a = toSet a' :=
    List.toFinset_eq_of_perm _ _ (ha.filterMap id)
  have hB : toSet b = toSet b' :=
    List.toFinset_eq_of_perm _ _ (hb.filterMap id)
  refine ⟨?_, ?_, ?_, ?_⟩
  · simp only [compute_sets, hA, hB]
  · rw [compute_sets_unique_A]
    exact sorted_sortedList _
  · rw [compute_sets_unique_B]
    exact sorted_sortedList _
  · rw [compute_sets_shared]
    exact sorted_sortedList _

/-- C4 (witness): the theorem applied to a two-row column and a
transposition of it. -/
theorem compute_sets_sorted_invariant_witness :
    compute_sets [some "b", none] [some "c"] = compute_sets [none, some "b"] [some "c"] ∧
      (compute_sets [none, some "b"] [some "c"]).unique_A.Sorted (· ≤ ·) ∧
      (compute_sets [none, some "b"] [some "c"]).unique_B.Sorted (· ≤ ·) ∧
      (compute_sets [none, some "b"] [some "c"]).shared.Sorted (· ≤ ·) :=
  compute_sets_sorted_invariant _ _ _ _ (List.Perm.swap _ _ _) (List.Perm.refl _)

/-- C10 (witness): the theorem applied at the two-space input. -/
theorem sanitize_whitespace_empty_witness :
    sanitize_filename "  " = "" ∧ safe_sheet_name "  " 2 = "Sheet3" := by
  refine ⟨(sanitize_whitespace_empty "  " (by decide)).1, ?_⟩
  rw [(sanitize_whitespace_empty "  " (by decide)).2 2]
  decide

/-! ## Claim C6: style validation -/

theorem ratLeB_eq_true_iff (x y : ℚ) : ratLeB x y = true ↔ x ≤ y := by
  rw [ratLeB, decide_eq_true_eq, Rat.le_def]

theorem ratLeB_eq_false_iff (x y : ℚ) : ratLeB x y = false ↔ ¬ x ≤ y := by
  simp [ratLeB, decide_eq_false_iff_not, Rat.le_def]

/-- C6: a style update whose entries do not both parse and lie in
range (alpha in [0, 1], label height in [0.9, 1.6]) is rejected: the
state is returned unchanged — the previous alpha and label height stay
active — and no redraw is performed (the render component of the
result is `none`). -/
theorem update_alpha_labely_rejects (st : AppState)
    (entry_alpha entry_labely : Option ℚ)
    (h : validStyleB entry_alpha entry_labely = false) :
    update_alpha_labely st entry_alpha entry_labely = (st, none) := by
  cases entry_alpha with
  | none => rfl
  | some a =>
    cases entry_labely with
    | none => rfl
    | some ly =>
      simp only [validStyleB, Bool.and_eq_false_iff, ratLeB_eq_false_iff] at h
      by_cases h1 : 0 ≤ a ∧ a ≤ 1
      · have h2 : ly < 9/10 ∨ 16/10 < ly := by
          rcases h with (h | h) | (h | h)
          · exact absurd h1.1 h
          · exact absurd h1.2 h
          · exact Or.inl (lt_of_not_le h)
          · exact Or.inr (lt_of_not_le h)
        simp only [update_alpha_labely]
        rw [if_pos h1, if_pos h2]
      · simp only [update_alpha_labely]
        rw [if_neg h1]

/-- C6 (witness): the theorem applied at alpha 2 (out of range) with
label height 1 (in range): the state, including its previous style
values, comes back unchanged and no redraw happens. -/
theorem update_alpha_labely_rejects_witness :
    update_alpha_labely exSt (some 2) (some 1) = (exSt, none) :=
  update_alpha_labely_rejects exSt (some 2) (some 1) (by decide)

/-! ## Claim C2: the "no usable sheets" load path -/

/-- Closed form of `load_workbook` on the failure path: with no
qualifying worksheet the session comes back cleared, not preserved. -/
theorem load_workbook_empty_eq (st : AppState) (path : String)
    (wb : List (String × DataFrame)) (h : qualifying wb = []) :
    load_workbook st path wb =
      ({ st with
          wb_path := some path
          sheets := []
          dfs := []
          labels := []
          headers := [] }, false) := by
  simp [load_workbook, h]

/-- Closed form of `load_workbook` on the success path. -/
theorem load_workbook_success_eq (st : AppState) (path : String)
    (wb : List (String × DataFrame)) (h : qualifying wb ≠ []) :
    load_workbook st path wb =
      ({ st with
          wb_path := some path
          sheets := (qualifying wb).map (fun p => p.1)
          dfs := qualifying wb
          headers := (qualifying wb).map
            (fun p => (p.1, (p.2.header 0, p.2.header 1)))
          labels := (qualifying wb).map
            (fun p => (p.1, (p.2.header 0, p.2.header 1)))
          idx := 0 }, true) := by
  have hq : (qualifying wb).isEmpty = false := by
    simpa [List.isEmpty_iff] using h
  simp [load_workbook, hq]

/-- C2 (counterexample): attempting to load a workbook whose only
sheet has one column, from a session holding one sheet, does NOT leave
the session as it was: the sheet list ends up empty. -/
theorem load_workbook_clears_cex :
    (load_workbook exSt "new.xlsx" [("Bad", ⟨[("only", [])]⟩)]).1 ≠ exSt ∧
      (load_workbook exSt "new.xlsx" [("Bad", ⟨[("only", [])]⟩)]).1.sheets = [] := by
  decide

/-- C2 (amended): if no worksheet has at least two columns, the load
fails (the "no usable sheets" dialog path, flag `false`), but the
session does not keep its previous state: the worksheet list, per-sheet
data, labels and headers are cleared, the workbook path is set to the
attempted path, and only the cursor index and visual style survive. -/
theorem load_workbook_no_usable (st : AppState) (path : String)
    (wb : List (String × DataFrame)) (h : qualifying wb = []) :
    load_workbook st path wb =
      ({ st with
          wb_path := some path
          sheets := []
          dfs := []
          labels := []
          headers := [] }, false) :=
  load_workbook_empty_eq st path wb h

/-- C2 (witness): the amended theorem applied to the one-column
workbook from the counterexample. -/
theorem load_workbook_no_usable_witness :
    load_workbook exSt "new.xlsx" [("Bad", ⟨[("only", [])]⟩)] =
      ({ exSt with
          wb_path := some "new.xlsx"
          sheets := []
          dfs := []
          labels := []
          headers := [] }, false) :=
  load_workbook_no_usable exSt "new.xlsx" [("Bad", ⟨[("only", [])]⟩)] (by decide)

/-! ## Claim C9: the cursor stays in bounds -/

theorem cursorInv_emod (st : AppState) (k : Int) :
    cursorInv { st with idx := k.emod st.sheets.length } := by
  rcases eq_or_ne st.sheets [] with hs | hs
  · exact Or.inl hs
  · have hpos : 0 < (st.sheets.length : Int) := by
      exact_mod_cast List.length_pos.mpr hs
    exact Or.inr ⟨Int.emod_nonneg _ hpos.ne', Int.emod_lt_of_pos _ hpos⟩

/-- C9: every workbook load (successful or not) re-establishes the
cursor invariant — a successful load sets the index to 0 — and both
navigation callbacks preserve it by wrapping modulo the sheet count,
so every `S.sheets[S.idx]` lookup is in bounds whenever sheets are
loaded. -/
theorem cursor_in_range (st st2 : AppState) (path : String)
    (wb : List (String × DataFrame)) (h2 : cursorInv st2) :
    cursorInv (load_workbook st path wb).1 ∧
      ((load_workbook st path wb).2 = true →
        (load_workbook st path wb).1.idx = 0) ∧
      cursorInv (prev_sheet st2) ∧ cursorInv (next_sheet st2) := by
  refine ⟨?_, ?_, ?_, ?_⟩
  · rcases eq_or_ne (qualifying wb) [] with hq | hq
    · rw [load_workbook_empty_eq st path wb hq]
      exact Or.inl rfl
    · rw [load_workbook_success_eq st path wb hq]
      refine Or.inr ⟨le_refl 0, ?_⟩
      have hpos : 0 < (qualifying wb).length := List.length_pos.mpr hq
      show (0 : Int) < (((qualifying wb).map (fun p => p.1)).length : Int)
      rw [List.length_map]
      exact_mod_cast hpos
  · intro hsucc
    rcases eq_or_ne (qualifying wb) [] with hq | hq
    · rw [load_workbook_empty_eq st path wb hq] at hsucc
      simp at hsucc
    · rw [load_workbook_success_eq st path wb hq]
  · by_cases hd : st2.has_data = true
    · simp only [prev_sheet, hd, if_true]
      exact cursorInv_emod st2 _
    · simp only [prev_sheet, hd]
      simpa using h2
  · by_cases hd : st2.has_data = true
    · simp only [next_sheet, hd, if_true]
      exact cursorInv_emod st2 _
    · simp only [next_sheet, hd]
      simpa using h2

/-- C9 (witness): the theorem applied at the concrete session and a
concrete one-sheet workbook. -/
theorem cursor_in_range_witness :
    cursorInv (load_workbook exSt "b.xlsx" [("S", exDF)]).1 ∧
      ((load_workbook exSt "b.xlsx" [("S", exDF)]).2 = true →
        (load_workbook exSt "b.xlsx" [("S", exDF)]).1.idx = 0) ∧
      cursorInv (prev_sheet exSt) ∧ cursorInv (next_sheet exSt) :=
  cursor_in_range exSt exSt "b.xlsx" [("S", exDF)] (by decide)

/-! ## Claim C8: graceful degradation of the batch export -/

theorem saveLoop_no_writer (st : AppState) (ts : String) (l : List String)
    (h : ∀ name ∈ l, sheetOk st name) :
    ∀ (done : Nat) (secs : List String),
      ∃ ps cs,
        saveLoop st ts false l done secs = some (ps, cs, secs, done + l.length) ∧
          ps.length = l.length ∧ cs.length = l.length := by
  induction l with
  | nil => exact fun done secs => ⟨[], [], rfl, rfl, rfl⟩
  | cons name rest ih =>
    intro done secs
    have hok := h name (List.mem_cons_self _ _)
    obtain ⟨df, hdf⟩ := Option.isSome_iff_exists.mp hok.1
    obtain ⟨lab, hlab⟩ := Option.isSome_iff_exists.mp hok.2.1
    have hcols : ¬ df.ncols < 2 := by
      have h22 := hok.2.2
      rw [hdf] at h22
      simpa using not_lt.mpr h22
    obtain ⟨ps, cs, hrec, hps, hcs⟩ :=
      ih (fun n hn => h n (List.mem_cons_of_mem _ hn)) (done + 1) secs
    refine ⟨(outBase name lab.1 lab.2 ts ++ ".png") :: ps,
      (outBase name lab.1 lab.2 ts ++ ".csv") :: cs, ?_, by simp [hps],
      by simp [hcs]⟩
    have harith : done + (name :: rest).length = done + 1 + rest.length := by
      simp only [List.length_cons]
      omega
    rw [harith]
    simp only [saveLoop, hdf, hlab, if_neg hcols, Bool.false_eq_true, if_false,
      hrec]

/-- C8: with the combined-workbook checkbox on but the writer
unavailable, the batch still completes: the export loop writes a PNG
and a CSV for every loaded sheet, exactly one warning is surfaced, the
reported done count equals the number of sheets, and no combined
workbook path is produced. -/
theorem save_all_sheets_graceful (st : AppState) (ts : String)
    (hdata : st.has_data = true)
    (h : ∀ name ∈ st.sheets, sheetOk st name) :
    ∃ r : SaveAllResult,
      save_all_sheets st true false ts = some r ∧
        r.done = st.sheets.length ∧
        r.pngs.length = st.sheets.length ∧
        r.csvs.length = st.sheets.length ∧
        r.warnings = 1 ∧
        r.combined_path = none := by
  obtain ⟨ps, cs, hloop, hps, hcs⟩ := saveLoop_no_writer st ts st.sheets h 0 []
  rw [Nat.zero_add] at hloop
  refine ⟨⟨ps, cs, [], 1, st.sheets.length, none⟩, ?_, rfl, hps, hcs, rfl, rfl⟩
  simp [save_all_sheets, hdata, hloop]

/-- C8 (witness): the theorem applied at the one-sheet session and a
fixed batch timestamp. -/
theorem save_all_sheets_graceful_witness :
    ∃ r : SaveAllResult,
      save_all_sheets exSt true false "20251012-000000" = some r ∧
        r.done = exSt.sheets.length ∧
        r.pngs.length = exSt.sheets.length ∧
        r.csvs.length = exSt.sheets.length ∧
        r.warnings = 1 ∧
        r.combined_path = none :=
  save_all_sheets_graceful exSt "20251012-000000" (by decide) (by decide)

end VennApp
